import Mathlib

/-!
Verification development for the `imageExporter.py` batch satellite-image
exporter.  The Python source is shallowly embedded as follows.

* Python floats are modelled as rationals (`ℚ`).  Every float value that the
  program manipulates here originates from a decimal literal (CSV input,
  filename fragments, configuration constants), so exact rational arithmetic
  agrees with the value-level behaviour of the source on all inputs used in
  the theorems; `math.degrees` is kept abstract as a function parameter `deg`
  (for the real-number geometry claims it is instantiated with
  `fun x => x * (180 / Real.pi)` over `ℝ`).
* The Earth Engine image-expression pipeline is reified as a syntax tree
  (`ImgExpr`): `filterDate`, `filterBounds`, property filters, `median`,
  `clip`, `visualize`, `select`, `rgbToHsv`, `hsvToRgb`, `cat`.
* The remote service and HTTP layer are an oracle (`RemoteEnv`): the result
  of `image.bandNames().getInfo()`, of `getDownloadUrl`, and of
  `requests.get` (status code and body).
* Side effects of one task are recorded in a `TaskTrace`: log lines written
  via `logging` (`info` / `exception`), `getDownloadUrl` requests issued,
  HTTP GETs issued, and files written.  Exceptions escaping the function body
  are the `Except` error component; exceptions caught by the body's
  `try/except` blocks never reach it, exactly as in the source.
* The `retry(tries=10, delay=2, backoff=2)` decorator (applied twice, lines
  81-82) is modelled by `retryAux`, faithful to the `retry` library: call the
  wrapped operation; on an exception sleep the current delay, multiply it by
  the backoff factor and try again, re-raising after the 10th failure.
  `RunOut` additionally records how many times the undecorated body ran and
  the sequence of back-off sleeps.
* The `__main__` dispatch loops are `runSerial` (direct calls, aborting at
  the first escaping exception) and `runParallel` (all submitted futures
  execute; iterating `future.result()` re-raises the first stored exception).
* The resume filter (lines 251-260) is `resumeFilter`: strip `.tif`, split on
  underscores, `float()` the third and fourth fragments, `list.remove` the
  `[lon, lat]` pair (raising `ValueError` when absent).  `float()` on the
  plain decimal strings occurring in filenames is `pyFloat`, which produces
  the exact decimal value as a rational built with `mkRat` (so that equality
  is kernel-decidable); `os.path.join a b` is modelled as `a ++ "/" ++ b`.
-/

/-- Python values stored in a dataset's `dico` entry: `None`, a string, a
list of band-name strings, a number (`resolution`, `min`, `max`), or an
`ee.ImageCollection` object (the `dataset` key).  `pyEq` is Python `==`
restricted to these shapes: values of different shapes are never equal, in
particular a list is never equal to a string.  (Collection objects compare
by identity in Python; two distinct literals are unequal, and no comparison
of a collection object with anything occurs in this program.) -/
inductive PyVal where
  | pyNone : PyVal
  | pyStr (s : String) : PyVal
  | pyList (xs : List String) : PyVal
  | pyNum (q : ℚ) : PyVal
  | pyCollection (id : String) : PyVal
deriving DecidableEq

def pyEq : PyVal → PyVal → Bool
  | .pyNone, .pyNone => true
  | .pyStr a, .pyStr b => a == b
  | .pyList a, .pyList b => a == b
  | .pyNum a, .pyNum b => a == b
  | _, _ => false

/-- Python `v in l` for a list `l` of strings: membership by `==`. -/
def pyIn (v : PyVal) (l : List String) : Bool :=
  l.any fun s => pyEq v (.pyStr s)

/-- Band list carried by a `PyVal` when it is used in `image.select(...)`
(dead code in the source: the pan-sharpening branch is unreachable). -/
def pyBands : PyVal → List String
  | .pyList xs => xs
  | .pyStr s => [s]
  | _ => []

/-- One entry of the global `dico` dataset dictionary (lines 23-68).
`bandGroups` maps a band-group key to its band list; the value `none` inside
the option mirrors Python `None` (dataset `gwl_fcs30` has `'RGB': None`).
`panchromatic = none` means the key is absent from the entry (`gwl_fcs30`);
`some v` is the stored Python value.  `resolution`, `minVal`, `maxVal` are
the `'resolution'`, `'min'`, `'max'` entries.  The full Python dict entry —
all keys, band groups and non-band-group keys alike — is reconstituted by
`cfgEntry` below. -/
structure DatasetConfig where
  collectionId : String
  resolution : ℚ
  bandGroups : List (String × Option (List String))
  panchromatic : Option PyVal
  minVal : ℚ
  maxVal : ℚ
deriving DecidableEq

def landsatCfg : DatasetConfig :=
  { collectionId := "LANDSAT/LC08/C02/T1_TOA"
    resolution := 30
    bandGroups := [("RGB", some ["B4", "B3", "B2"]), ("SI1", some ["B6"]),
                   ("SI2", some ["B7"]), ("NIR", some ["B5"]), ("Cirrus", some ["B9"])]
    panchromatic := some (PyVal.pyList ["B8"])
    minVal := 0
    maxVal := mkRat 4 10 }

def naipCfg : DatasetConfig :=
  { collectionId := "USDA/NAIP/DOQQ"
    resolution := mkRat 6 10
    bandGroups := [("RGB", some ["R", "G", "B"]), ("IR", some ["N", "R", "G"]),
                   ("NIR", some ["N"])]
    panchromatic := some PyVal.pyNone
    minVal := 0
    maxVal := 255 }

def sentinelCfg : DatasetConfig :=
  { collectionId := "COPERNICUS/S2_SR_HARMONIZED"
    resolution := 10
    bandGroups := [("RGB", some ["B4", "B3", "B2"]), ("RE", some ["B7", "B6", "B5"]),
                   ("RE4", some ["B8A"]), ("NIR", some ["B8"]), ("SWIR1", some ["B11"]),
                   ("SWIR2", some ["B12"]), ("IR", some ["B8", "B4", "B3"])]
    panchromatic := some PyVal.pyNone
    minVal := 0
    maxVal := 4500 }

def gwlCfg : DatasetConfig :=
  { collectionId := "projects/sat-io/open-datasets/GWL_FCS30"
    resolution := 30
    bandGroups := [("RGB", none)]
    panchromatic := none
    minVal := 0
    maxVal := 1 }

/-- The global `dico` dictionary: dataset name to configuration; `none` is a
`KeyError` on lookup. -/
def dico : String → Option DatasetConfig
  | "landsat" => some landsatCfg
  | "naip" => some naipCfg
  | "sentinel" => some sentinelCfg
  | "gwl_fcs30" => some gwlCfg
  | _ => none

/-- The lookup `dico[dataset][band]` of line 137 over the WHOLE dict entry:
besides the band-group keys, every entry also holds `'dataset'` (the
collection object), `'resolution'`, `'min'`, `'max'` (numbers) and — except
for `gwl_fcs30` — `'panchromatic'`; only a key present nowhere in the entry
is a `KeyError` (`none`).  In the source dicts the five fixed keys are
disjoint from the band-group keys, so checking them first is exact.  A
band-group key stores its band list, or Python `None` for gwl's `'RGB'`. -/
def cfgEntry (cfg : DatasetConfig) (key : String) : Option PyVal :=
  if key = "dataset" then some (.pyCollection cfg.collectionId)
  else if key = "resolution" then some (.pyNum cfg.resolution)
  else if key = "panchromatic" then cfg.panchromatic
  else if key = "min" then some (.pyNum cfg.minVal)
  else if key = "max" then some (.pyNum cfg.maxVal)
  else (List.lookup key cfg.bandGroups).map
    (fun o => match o with
      | some l => PyVal.pyList l
      | none => PyVal.pyNone)

/-- Exceptions that can escape the body of `generateURL`: `KeyError` on the
dataset dictionary (`unknownDataset`), `KeyError` on a key absent from the
dataset's dict entry (`unknownBandGroup`), the `TypeError` of line 142 when
`all(b in bands_list for b in RGB)` iterates a non-list dict value such as
`'min'` or `'resolution'` (no entry holds a string, which alone would be
iterable per character), and an error raised by a remote call that is not
inside a `try` block (the `bandNames().getInfo()` fetch). -/
inductive PyExn where
  | unknownDataset (d : String)
  | unknownBandGroup (d g : String)
  | typeErr (msg : String)
  | remote (msg : String)
deriving DecidableEq

/-- A rectangle as passed to `ee.Geometry.Rectangle([[xMin, yMin], [xMax, yMax]])`. -/
abbrev RectQ := (ℚ × ℚ) × (ℚ × ℚ)

/-- Reified Earth Engine image/collection expressions built by `generateURL`. -/
inductive ImgExpr where
  | collection (id : String)
  | filterDate (c : ImgExpr) (startD endD : String)
  | filterBounds (c : ImgExpr) (r : RectQ)
  | filterLte (c : ImgExpr) (prop : String) (v : ℚ)
  | median (c : ImgExpr)
  | clip (i : ImgExpr) (r : RectQ)
  | visualize (i : ImgExpr) (bands : List String) (mi ma : ℚ)
  | select (i : ImgExpr) (bands : List String)
  | rgbToHsv (i : ImgExpr)
  | hsvToRgb (i : ImgExpr)
  | cat3 (a b c : ImgExpr)
deriving DecidableEq

/-- One line written through `logging`: `info` for `logging.info`, `errorLog`
for `logging.exception`. -/
inductive LogEvent where
  | info (msg : String)
  | errorLog (msg : String)
deriving DecidableEq

/-- One `getDownloadUrl` request: the image expression it is invoked on and
the parameters of the request dictionary that the claims inspect. -/
structure DlReq where
  image : ImgExpr
  description : String
  region : RectQ
  crs : String
  dims : Nat × Nat
deriving DecidableEq

/-- The observable side effects of one execution of the `generateURL` body. -/
structure TaskTrace where
  logs : List LogEvent
  requests : List DlReq
  httpGets : List String
  files : List (String × String)
  sharpenAttempted : Bool
deriving DecidableEq

def TaskTrace.empty : TaskTrace := ⟨[], [], [], [], false⟩

def TaskTrace.append (a b : TaskTrace) : TaskTrace :=
  ⟨a.logs ++ b.logs, a.requests ++ b.requests, a.httpGets ++ b.httpGets,
   a.files ++ b.files, a.sharpenAttempted || b.sharpenAttempted⟩

/-- The remote service as seen by one execution of the body:
the result of `image.bandNames().getInfo()` (which is *not* inside a `try`
block, so an error here escapes the body), the result of `getDownloadUrl`
for a given description, and the result of `requests.get` for a given URL
(an HTTP status code and a response body, or a raised error). -/
structure RemoteEnv where
  bandsInfo : Except String (List String)
  getUrl : String → Except String String
  httpGet : String → Except String (Nat × String)

/-- `boundingBox(lat, lon, size, res)`, lines 70-79:
`angular_distance = math.degrees(0.5 * ((size * res) / earth_radius))` with
`earth_radius = 6371000`; returns `(xMin, xMax, yMin, yMax)`.  The
degree-conversion `math.degrees` is the parameter `deg`. -/
def boundingBox {α : Type} [Field α] (deg : α → α) (lat lon size res : α) :
    α × α × α × α :=
  (lon - deg (1 / 2 * (size * res / 6371000)),
   lon + deg (1 / 2 * (size * res / 6371000)),
   lat - deg (1 / 2 * (size * res / 6371000)),
   lat + deg (1 / 2 * (size * res / 6371000)))

/-- Package a `boundingBox` result as the rectangle
`[[xMin, yMin], [xMax, yMax]]` of line 95. -/
def regionOf (b : ℚ × ℚ × ℚ × ℚ) : RectQ :=
  ((b.1, b.2.2.1), (b.2.1, b.2.2.2))

/-- Lines 87-91: the effective spatial resolution.  For `sentinel` with a
band group outside `['RGB', 'NIR', 'IR']` it is 20; otherwise it is
`dico[dataset]['resolution']`, a `KeyError` when the dataset is unknown. -/
def effectiveResolution (dataset band : String) : Except PyExn ℚ :=
  if dataset = "sentinel" ∧ band ∉ (["RGB", "NIR", "IR"] : List String) then .ok 20
  else
    match dico dataset with
    | some cfg => .ok cfg.resolution
    | none => .error (.unknownDataset dataset)

/-- One `try: url = ...getDownloadUrl(...); response = requests.get(url); ...
except Exception as e: logging.exception(e)` block (lines 115-132 and
144-161 and 179-196).  The request is recorded, then the URL is fetched;
a non-200 status raises inside the `try` and is caught and logged, a 200
status writes the body to `fileName` and logs `Done: ...`.  Every failure is
caught here: nothing escapes this block. -/
def attemptDownload (env : RemoteEnv) (imageVis : ImgExpr) (region : RectQ)
    (crs : String) (height width : Nat) (reqDescription fileName doneName : String)
    (t : TaskTrace) : TaskTrace :=
  match env.getUrl reqDescription with
  | .error e =>
    ⟨t.logs ++ [.errorLog e],
     t.requests ++ [⟨imageVis, reqDescription, region, crs, (height, width)⟩],
     t.httpGets, t.files, t.sharpenAttempted⟩
  | .ok url =>
    match env.httpGet url with
    | .error e =>
      ⟨t.logs ++ [.errorLog e],
       t.requests ++ [⟨imageVis, reqDescription, region, crs, (height, width)⟩],
       t.httpGets ++ [url], t.files, t.sharpenAttempted⟩
    | .ok (status, body) =>
      if status = 200 then
        ⟨t.logs ++ [.info ("Done: " ++ doneName)],
         t.requests ++ [⟨imageVis, reqDescription, region, crs, (height, width)⟩],
         t.httpGets ++ [url], t.files ++ [(fileName, body)], t.sharpenAttempted⟩
      else
        ⟨t.logs ++ [.errorLog ("HTTPError " ++ toString status)],
         t.requests ++ [⟨imageVis, reqDescription, region, crs, (height, width)⟩],
         t.httpGets ++ [url], t.files, t.sharpenAttempted⟩

/-- Line 85: `description = f"{dataset}_image_{lat}_{lon}"`. -/
def descriptionOf (dataset : String) (lat lon : ℚ) : String :=
  s!"{dataset}_image_{lat}_{lon}"

/-- Line 198: the `logging.info` message for a missing-bands skip. -/
def missingBandsMsg (lat lon : ℚ) (bl : List String) : String :=
  s!"Image at ({lat}, {lon}) missing required bands. Found bands: {bl}"

/-- The body of `generateURL` after the dataset configuration `cfg` and the
effective resolution `res` have been resolved (lines 84-198 minus 87-91).
Returns the escaping exception (if any) and the side-effect trace. -/
def generateURLCore (env : RemoteEnv) (lon lat : ℚ) (height width : Nat)
    (dataset crs output_dir start_date end_date band : String) (sharpened : Bool)
    (cfg : DatasetConfig) (res : ℚ) (deg : ℚ → ℚ) :
    Except PyExn Unit × TaskTrace :=
  let description := descriptionOf dataset lat lon
  let region := regionOf (boundingBox deg lat lon (height : ℚ) res)
  let filtered0 :=
    ImgExpr.filterBounds
      (ImgExpr.filterDate (ImgExpr.collection cfg.collectionId) start_date end_date)
      region
  let filtered :=
    if dataset = "sentinel" then ImgExpr.filterLte filtered0 "CLOUDY_PIXEL_PERCENTAGE" 25
    else if dataset = "landsat" then ImgExpr.filterLte filtered0 "CLOUD_COVER" 25
    else filtered0
  let image := ImgExpr.clip (ImgExpr.median filtered) region
  match env.bandsInfo with
  | .error msg => (.error (.remote msg), TaskTrace.empty)
  | .ok bands_list =>
    if dataset = "gwl_fcs30" then
      (.ok (), attemptDownload env image region crs height width description
        (output_dir ++ "/" ++ description ++ ".tif") description TaskTrace.empty)
    else
      match cfgEntry cfg band with
      | none => (.error (.unknownBandGroup dataset band), TaskTrace.empty)
      | some (PyVal.pyList RGB) =>
        if RGB.all (fun b => bands_list.contains b) then
          let image_vis := ImgExpr.visualize image RGB cfg.minVal cfg.maxVal
          let t1 := attemptDownload env image_vis region crs height width description
            (output_dir ++ "/" ++ description ++ ".tif") description TaskTrace.empty
          match cfg.panchromatic with
          | none => (.error (.typeErr "KeyError panchromatic"), t1)
          | some pv =>
            if sharpened && pyIn pv bands_list then
              let t2 : TaskTrace := { t1 with sharpenAttempted := true }
              let hsv := ImgExpr.rgbToHsv (ImgExpr.select image RGB)
              let sharp := ImgExpr.hsvToRgb
                (ImgExpr.cat3 (ImgExpr.select hsv ["hue"])
                  (ImgExpr.select hsv ["saturation"])
                  (ImgExpr.select image (pyBands pv)))
              (.ok (), attemptDownload env sharp region crs height width
                ("sharpened" ++ description)
                (output_dir ++ "/" ++ "sharpened_" ++ description ++ ".tif")
                ("sharpened_" ++ description) t2)
            else (.ok (), t1)
        else
          (.ok (),
           { TaskTrace.empty with logs := [.info (missingBandsMsg lat lon bands_list)] })
      | some _ => (.error (.typeErr "object is not iterable"), TaskTrace.empty)

/-- One execution of the (undecorated) `generateURL` body, lines 83-198.
`coord` is the `[lon, lat]` pair of the work list. -/
def generateURL (deg : ℚ → ℚ) (env : RemoteEnv) (coord : ℚ × ℚ)
    (height width : Nat) (dataset crs output_dir start_date end_date band : String)
    (sharpened : Bool) : Except PyExn Unit × TaskTrace :=
  match effectiveResolution dataset band with
  | .error e => (.error e, TaskTrace.empty)
  | .ok res =>
    match dico dataset with
    | none => (.error (.unknownDataset dataset), TaskTrace.empty)
    | some cfg =>
      generateURLCore env coord.1 coord.2 height width dataset crs output_dir
        start_date end_date band sharpened cfg res deg

deriving instance DecidableEq for Except

/-- Result of running a (possibly retry-wrapped) task: the outcome, the
accumulated side-effect trace, the number of executions of the undecorated
body, and the sequence of back-off sleep durations. -/
structure RunOut where
  outcome : Except PyExn Unit
  trace : TaskTrace
  calls : Nat
  sleeps : List Nat
deriving DecidableEq

/-- A retryable operation, indexed by the number of body executions that
already happened (so that a per-attempt environment can be threaded). -/
abbrev RStep := Nat → RunOut

def baseStep (task : Nat → Except PyExn Unit × TaskTrace) : RStep :=
  fun i => ⟨(task i).1, (task i).2, 1, []⟩

/-- The `retry` library decorator with `tries` remaining attempts and current
delay `d`: run the operation; on success return; on failure, if this was the
last attempt re-raise, otherwise sleep `d`, multiply the delay by `backoff`
and retry.  With `tries = 0` the library's loop body never runs and the call
returns `None` (vacuously a success with no executions). -/
def retryAux (step : RStep) (backoff : Nat) : Nat → Nat → RStep
  | 0, _ => fun _ => ⟨.ok (), TaskTrace.empty, 0, []⟩
  | 1, _ => step
  | t + 2, d => fun i =>
    let r := step i
    match r.outcome with
    | .ok _ => r
    | .error _ =>
      let r2 := retryAux step backoff (t + 1) (d * backoff) (i + r.calls)
      ⟨r2.outcome, r.trace.append r2.trace, r.calls + r2.calls, r.sleeps ++ d :: r2.sleeps⟩

def retryStep (step : RStep) (tries delay backoff : Nat) : RStep :=
  retryAux step backoff tries delay

/-- `generateURL` as dispatched: the body wrapped in the two stacked
`@retry(tries=10, delay=2, backoff=2)` decorators of lines 81-82 (the
decorator written closer to the `def` wraps first). -/
def generateURLRetried (deg : ℚ → ℚ) (envSeq : Nat → RemoteEnv) (coord : ℚ × ℚ)
    (height width : Nat) (dataset crs output_dir start_date end_date band : String)
    (sharpened : Bool) : RunOut :=
  retryStep
    (retryStep
      (baseStep (fun i => generateURL deg (envSeq i) coord height width dataset crs
        output_dir start_date end_date band sharpened))
      10 2 2)
    10 2 2 0

/-- The sleep sequence of a full failing retry cycle: `sl` is the sleep trace
of one inner run, `k` the number of sleeps taken at this level, starting at
delay `d` and multiplying by `b`. -/
def sleepsFor (sl : List Nat) (b : Nat) : Nat → Nat → List Nat
  | _, 0 => sl
  | d, k + 1 => sl ++ d :: sleepsFor sl b (d * b) k

/-- Serial dispatch (lines 270-275): tasks run one at a time; an exception
escaping a task propagates out of the loop, so later tasks never run.
The result pairs the run outcome with the traces of the tasks that executed. -/
def runSerial : List (Except PyExn Unit × TaskTrace) → Except PyExn Unit × List TaskTrace
  | [] => (.ok (), [])
  | (o, tr) :: rest =>
    match o with
    | .ok _ => ((runSerial rest).1, tr :: (runSerial rest).2)
    | .error e => (.error e, [tr])

def firstErr : List (Except PyExn Unit × TaskTrace) → Except PyExn Unit
  | [] => .ok ()
  | (o, _) :: rest =>
    match o with
    | .error e => .error e
    | .ok _ => firstErr rest

/-- Parallel dispatch (lines 262-269): all futures are submitted before any
result is read, and `ProcessPoolExecutor` shutdown waits for them, so every
task executes; the `for future in ...: future.result()` loop re-raises the
first stored exception, aborting the main process. -/
def runParallel (results : List (Except PyExn Unit × TaskTrace)) :
    Except PyExn Unit × List TaskTrace :=
  (firstErr results, results.map fun p => p.2)

/-- `file.replace('.tif', '')`: remove every (non-overlapping, leftmost)
occurrence of `.tif`. -/
def stripTif : List Char → List Char
  | '.' :: 't' :: 'i' :: 'f' :: rest => stripTif rest
  | c :: rest => c :: stripTif rest
  | [] => []

/-- Python `str.split(sep)` for a single-character separator. -/
def splitChar (sep : Char) : List Char → List (List Char)
  | [] => [[]]
  | c :: rest =>
    if c = sep then [] :: splitChar sep rest
    else
      match splitChar sep rest with
      | [] => [[c]]
      | g :: gs => (c :: g) :: gs

def digitsValAux : Nat → List Char → Option Nat
  | acc, [] => some acc
  | acc, c :: rest =>
    if '0' ≤ c ∧ c ≤ '9' then digitsValAux (acc * 10 + (c.toNat - '0'.toNat)) rest
    else none

def digitsVal : List Char → Option Nat
  | [] => none
  | l => digitsValAux 0 l

/-- The exact value of a plain decimal digit string (with at most one `.`),
with the given sign, as a rational.  `none` models a `ValueError` from
`float()`. -/
def decToRat (sign : Int) (l : List Char) : Option ℚ :=
  match splitChar '.' l with
  | [ip] => (digitsVal ip).map fun n => mkRat (sign * n) 1
  | [ip, fp] =>
    match digitsVal ip, digitsVal fp with
    | some n, some f => some (mkRat (sign * (n * 10 ^ fp.length + f)) (10 ^ fp.length))
    | _, _ => none
  | _ => none

/-- Python `float()` restricted to the optionally-negated plain decimal forms
that `repr` of a float produces in the filenames at issue. -/
def pyFloat : List Char → Option ℚ
  | '-' :: rest => decToRat (-1) rest
  | l => decToRat 1 l

/-- Lines 255-258: strip `.tif`, split the filename on `_`, and `float()` the
fragments at indices 2 and 3 (lat then lon); returns the `[lon, lat]` pair,
or `none` for the `IndexError`/`ValueError` that would crash the run. -/
def parseFilename (file : String) : Option (ℚ × ℚ) :=
  let tokens := splitChar '_' (stripTif file.toList)
  match tokens[2]?, tokens[3]? with
  | some latT, some lonT =>
    match pyFloat latT, pyFloat lonT with
    | some lat, some lon => some (lon, lat)
    | _, _ => none
  | _, _ => none

/-- Python `list.remove`: drop the first element equal to `a`, raising
`ValueError` when no element matches. -/
def pyRemove {α : Type} [DecidableEq α] : List α → α → Except String (List α)
  | [], _ => .error "ValueError"
  | x :: rest, a =>
    if x = a then .ok rest
    else (pyRemove rest a).map fun l => x :: l

/-- Removal of the first occurrence of an element, the successful effect of
Python `list.remove`. -/
def eraseFirst {α : Type} [DecidableEq α] : List α → α → List α
  | [], _ => []
  | x :: rest, a => if x = a then rest else x :: eraseFirst rest a

/-- The resume filter, lines 251-260: for every file in the output-directory
listing, parse its embedded coordinate and `remove` it from the work list.
Any parse failure or failed `remove` is an uncaught exception that aborts
the run before dispatch. -/
def resumeFilter : List String → List (ℚ × ℚ) → Except String (List (ℚ × ℚ))
  | [], data => .ok data
  | file :: rest, data =>
    match parseFilename file with
    | none => .error "ValueError"
    | some c =>
      match pyRemove data c with
      | .error e => .error e
      | .ok d => resumeFilter rest d

/-- `math.degrees` over the reals: multiplication by `180 / π`. -/
noncomputable def degreesR (x : ℝ) : ℝ := x * (180 / Real.pi)

/-- A remote environment whose download step fails: `requests.get` answers
with HTTP status 500. -/
def envDlFail : RemoteEnv :=
  ⟨.ok ["R", "G", "B", "N"], fun _ => .ok "http://u0", fun _ => .ok (500, "")⟩

/-- A fully healthy remote environment for the `naip` bands. -/
def envDlOk : RemoteEnv :=
  ⟨.ok ["R", "G", "B", "N"], fun _ => .ok "http://u", fun _ => .ok (200, "DATA")⟩

/-- A remote environment whose `bandNames().getInfo()` call raises. -/
def envBandsFail : RemoteEnv :=
  ⟨.error "boom", fun _ => .ok "u", fun _ => .ok (200, "")⟩

/-- A healthy remote environment reporting the `landsat` bands, the
panchromatic band `B8` included. -/
def envLandsat : RemoteEnv :=
  ⟨.ok ["B4", "B3", "B2", "B8"], fun _ => .ok "u", fun _ => .ok (200, "D")⟩

/-- A remote environment whose filtered collection lacks the `B` band of the
`naip` RGB group. -/
def envMissing : RemoteEnv :=
  ⟨.ok ["R", "G"], fun _ => .ok "u", fun _ => .ok (200, "D")⟩

/-! ### Helper lemmas -/

lemma pyIn_pyList (xs bl : List String) : pyIn (.pyList xs) bl = false := by
  simp [pyIn, pyEq]

lemma pyIn_pyNone (bl : List String) : pyIn .pyNone bl = false := by
  simp [pyIn, pyEq]

lemma attemptDownload_sharpen (env : RemoteEnv) (iv : ImgExpr) (r : RectQ)
    (c : String) (h w : Nat) (d f dn : String) (t : TaskTrace) :
    (attemptDownload env iv r c h w d f dn t).sharpenAttempted = t.sharpenAttempted := by
  unfold attemptDownload
  split
  · rfl
  · split
    · rfl
    · split <;> rfl

lemma attemptDownload_requests (env : RemoteEnv) (iv : ImgExpr) (r : RectQ)
    (c : String) (h w : Nat) (d f dn : String) (t : TaskTrace) :
    (attemptDownload env iv r c h w d f dn t).requests =
      t.requests ++ [⟨iv, d, r, c, (h, w)⟩] := by
  unfold attemptDownload
  split
  · rfl
  · split
    · rfl
    · split <;> rfl

lemma attemptDownload_non200 (env : RemoteEnv) (d url : String) (status : Nat)
    (body : String)
    (hurl : env.getUrl d = .ok url) (hget : env.httpGet url = .ok (status, body))
    (hst : status ≠ 200) :
    ∀ (iv : ImgExpr) (r : RectQ) (c : String) (h w : Nat) (f dn : String) (t : TaskTrace),
    attemptDownload env iv r c h w d f dn t =
      ⟨t.logs ++ [.errorLog ("HTTPError " ++ toString status)],
       t.requests ++ [⟨iv, d, r, c, (h, w)⟩], t.httpGets ++ [url], t.files,
       t.sharpenAttempted⟩ := by
  intro iv r c h w f dn t
  unfold attemptDownload
  simp only [hurl, hget]
  simp [hst]

lemma generateURL_eq_core (deg : ℚ → ℚ) (env : RemoteEnv) (coord : ℚ × ℚ)
    (height width : Nat) (dataset crs od sd ed band : String) (sh : Bool)
    (cfg : DatasetConfig) (hcfg : dico dataset = some cfg) :
    generateURL deg env coord height width dataset crs od sd ed band sh =
      generateURLCore env coord.1 coord.2 height width dataset crs od sd ed band sh cfg
        (if dataset = "sentinel" ∧ band ∉ (["RGB", "NIR", "IR"] : List String) then 20
         else cfg.resolution) deg := by
  have he : effectiveResolution dataset band =
      .ok (if dataset = "sentinel" ∧ band ∉ (["RGB", "NIR", "IR"] : List String) then 20
           else cfg.resolution) := by
    unfold effectiveResolution
    split_ifs with hc
    · rfl
    · rw [hcfg]
  unfold generateURL
  rw [he, hcfg]

lemma cfgEntry_of_lookup (d : String) (cfg : DatasetConfig) (band : String)
    (bands : List String) (hcfg : dico d = some cfg)
    (hbg : List.lookup band cfg.bandGroups = some (some bands)) :
    cfgEntry cfg band = some (.pyList bands) := by
  have hkeys : band ≠ "dataset" ∧ band ≠ "resolution" ∧ band ≠ "panchromatic" ∧
      band ≠ "min" ∧ band ≠ "max" := by
    unfold dico at hcfg
    split at hcfg
    all_goals first
      | exact Option.noConfusion hcfg
      | (injection hcfg with h
         subst h
         refine ⟨?_, ?_, ?_, ?_, ?_⟩ <;>
           (rintro rfl
            simp [landsatCfg, naipCfg, sentinelCfg, gwlCfg, List.lookup] at hbg))
  obtain ⟨h1, h2, h3, h4, h5⟩ := hkeys
  unfold cfgEntry
  rw [if_neg h1, if_neg h2, if_neg h3, if_neg h4, if_neg h5, hbg]
  rfl

lemma core_missing (env : RemoteEnv) (lon lat : ℚ) (height width : Nat)
    (dataset crs od sd ed band : String) (sh : Bool) (cfg : DatasetConfig)
    (res : ℚ) (deg : ℚ → ℚ) (bands bl : List String)
    (hng : dataset ≠ "gwl_fcs30")
    (hbi : env.bandsInfo = .ok bl)
    (hbg : cfgEntry cfg band = some (.pyList bands))
    (hmiss : bands.all (fun b => bl.contains b) = false) :
    generateURLCore env lon lat height width dataset crs od sd ed band sh cfg res deg =
      (.ok (), ⟨[.info (missingBandsMsg lat lon bl)], [], [], [], false⟩) := by
  unfold generateURLCore
  simp only [hbi, hbg, hmiss]
  simp [hng, TaskTrace.empty]

lemma core_unknown_bg (env : RemoteEnv) (lon lat : ℚ) (height width : Nat)
    (dataset crs od sd ed band : String) (sh : Bool) (cfg : DatasetConfig)
    (res : ℚ) (deg : ℚ → ℚ) (bl : List String)
    (hng : dataset ≠ "gwl_fcs30")
    (hbi : env.bandsInfo = .ok bl)
    (hbg : cfgEntry cfg band = none) :
    (generateURLCore env lon lat height width dataset crs od sd ed band sh cfg res deg).1 =
      .error (.unknownBandGroup dataset band) := by
  unfold generateURLCore
  simp only [hbi, hbg]
  simp [hng]

lemma core_dl_fail (env : RemoteEnv) (lon lat : ℚ) (height width : Nat)
    (dataset crs od sd ed band : String) (cfg : DatasetConfig) (res : ℚ)
    (deg : ℚ → ℚ) (bands bl : List String) (pv : PyVal) (url : String)
    (status : Nat) (body : String)
    (hng : dataset ≠ "gwl_fcs30")
    (hbi : env.bandsInfo = .ok bl)
    (hbg : cfgEntry cfg band = some (.pyList bands))
    (hall : bands.all (fun b => bl.contains b) = true)
    (hpan : cfg.panchromatic = some pv)
    (hurl : env.getUrl (descriptionOf dataset lat lon) = .ok url)
    (hget : env.httpGet url = .ok (status, body))
    (hst : status ≠ 200) :
    generateURLCore env lon lat height width dataset crs od sd ed band false cfg res deg =
      (.ok (), ⟨[.errorLog ("HTTPError " ++ toString status)],
                [⟨ImgExpr.visualize
                    (ImgExpr.clip (ImgExpr.median
                      (if dataset = "sentinel" then
                        ImgExpr.filterLte (ImgExpr.filterBounds
                          (ImgExpr.filterDate (ImgExpr.collection cfg.collectionId) sd ed)
                          (regionOf (boundingBox deg lat lon (height : ℚ) res)))
                          "CLOUDY_PIXEL_PERCENTAGE" 25
                       else if dataset = "landsat" then
                        ImgExpr.filterLte (ImgExpr.filterBounds
                          (ImgExpr.filterDate (ImgExpr.collection cfg.collectionId) sd ed)
                          (regionOf (boundingBox deg lat lon (height : ℚ) res)))
                          "CLOUD_COVER" 25
                       else
                        ImgExpr.filterBounds
                          (ImgExpr.filterDate (ImgExpr.collection cfg.collectionId) sd ed)
                          (regionOf (boundingBox deg lat lon (height : ℚ) res))))
                      (regionOf (boundingBox deg lat lon (height : ℚ) res)))
                    bands cfg.minVal cfg.maxVal,
                  descriptionOf dataset lat lon,
                  regionOf (boundingBox deg lat lon (height : ℚ) res), crs,
                  (height, width)⟩],
                [url], [], false⟩) := by
  unfold generateURLCore
  simp only [hbi, hbg, hall, hpan]
  simp [hng, attemptDownload_non200 env _ url status body hurl hget hst, TaskTrace.empty]

lemma retryAux_ok (step : RStep) (b t d i : Nat) (ht : 1 ≤ t)
    (h : (step i).outcome = .ok ()) : retryAux step b t d i = step i := by
  match t, ht with
  | 1, _ => rfl
  | (t + 2), _ =>
    show retryAux step b (t + 2) d i = step i
    simp only [retryAux]
    split
    · rfl
    · rename_i heq
      rw [h] at heq
      exact Except.noConfusion heq

lemma retryAux_constFail (step : RStep) (b : Nat) (e : PyExn) (n : Nat) (sl : List Nat)
    (h : ∀ i, step i = ⟨.error e, TaskTrace.empty, n, sl⟩) :
    ∀ (t d i : Nat), retryAux step b (t + 1) d i =
      ⟨.error e, TaskTrace.empty, (t + 1) * n, sleepsFor sl b d t⟩ := by
  intro t
  induction t with
  | zero =>
    intro d i
    show retryAux step b 1 d i = _
    rw [show retryAux step b 1 d = step from rfl, h i]
    simp [sleepsFor]
  | succ t ih =>
    intro d i
    show retryAux step b (t + 2) d i = _
    simp only [retryAux, h i, ih (d * b) (i + n)]
    simp [TaskTrace.append, TaskTrace.empty, sleepsFor, RunOut.mk.injEq]
    ring

lemma retryAux_calls_le (step : RStep) (b B : Nat) (h : ∀ i, (step i).calls ≤ B) :
    ∀ (t d i : Nat), (retryAux step b t d i).calls ≤ t * B := by
  intro t
  induction t with
  | zero => intro d i; simp [retryAux]
  | succ t ih =>
    intro d i
    cases t with
    | zero => simpa [retryAux] using h i
    | succ u =>
      show (retryAux step b (u + 2) d i).calls ≤ (u + 2) * B
      simp only [retryAux]
      split
      · calc (step i).calls ≤ B := h i
          _ ≤ (u + 2) * B := Nat.le_mul_of_pos_left B (by omega)
      · simp only [RunOut.calls]
        calc (step i).calls + (retryAux step b (u + 1) (d * b) (i + (step i).calls)).calls
              ≤ B + (u + 1) * B := Nat.add_le_add (h i) (ih (d * b) (i + (step i).calls))
          _ = (u + 2) * B := by ring

lemma pyRemove_of_mem {α : Type} [DecidableEq α] {a : α} :
    ∀ {xs : List α}, a ∈ xs → pyRemove xs a = .ok (eraseFirst xs a) := by
  intro xs
  induction xs with
  | nil => intro h; exact absurd h (List.not_mem_nil a)
  | cons x rest ih =>
    intro h
    by_cases hx : x = a
    · subst hx
      simp [pyRemove, eraseFirst]
    · have hmem : a ∈ rest := by
        rcases List.mem_cons.mp h with h1 | h1
        · exact absurd h1.symm hx
        · exact h1
      simp [pyRemove, eraseFirst, hx, ih hmem, Except.map]

lemma pyRemove_of_not_mem {α : Type} [DecidableEq α] {a : α} :
    ∀ {xs : List α}, a ∉ xs → pyRemove xs a = .error "ValueError" := by
  intro xs
  induction xs with
  | nil => intro _; rfl
  | cons x rest ih =>
    intro h
    have hx : x ≠ a := fun hh => h (hh ▸ List.mem_cons_self x rest)
    have hm : a ∉ rest := fun hmem => h (List.mem_cons_of_mem x hmem)
    simp [pyRemove, hx, ih hm, Except.map]

lemma generateURL_unknown_dataset (deg : ℚ → ℚ) (env : RemoteEnv) (coord : ℚ × ℚ)
    (height width : Nat) (dataset crs od sd ed band : String) (sh : Bool)
    (hd : dico dataset = none) :
    generateURL deg env coord height width dataset crs od sd ed band sh =
      (.error (.unknownDataset dataset), TaskTrace.empty) := by
  have hns : dataset ≠ "sentinel" := by
    intro hh
    rw [hh] at hd
    exact absurd hd (by decide)
  unfold generateURL effectiveResolution
  rw [if_neg (fun hc => hns hc.1), hd]

lemma core_gwl_band (env : RemoteEnv) (lon lat : ℚ) (height width : Nat)
    (crs od sd ed b1 b2 : String) (sh : Bool) (cfg : DatasetConfig) (res : ℚ)
    (deg : ℚ → ℚ) :
    generateURLCore env lon lat height width "gwl_fcs30" crs od sd ed b1 sh cfg res deg =
      generateURLCore env lon lat height width "gwl_fcs30" crs od sd ed b2 sh cfg res deg := rfl

lemma core_gwl_outcome (env : RemoteEnv) (lon lat : ℚ) (height width : Nat)
    (crs od sd ed band : String) (sh : Bool) (cfg : DatasetConfig) (res : ℚ)
    (deg : ℚ → ℚ) :
    (generateURLCore env lon lat height width "gwl_fcs30" crs od sd ed band sh cfg res deg).1 =
      .ok () ∨
    ∃ m, (generateURLCore env lon lat height width "gwl_fcs30" crs od sd ed band sh cfg res deg).1 =
      .error (.remote m) := by
  unfold generateURLCore
  cases hbi : env.bandsInfo with
  | error m => exact Or.inr ⟨m, rfl⟩
  | ok bl => exact Or.inl rfl

lemma core_gwl_requests (env : RemoteEnv) (lon lat : ℚ) (height width : Nat)
    (crs od sd ed band : String) (sh : Bool) (cfg : DatasetConfig) (res : ℚ)
    (deg : ℚ → ℚ) (bl : List String) (hbi : env.bandsInfo = .ok bl) :
    (generateURLCore env lon lat height width "gwl_fcs30" crs od sd ed band sh cfg res deg).2.requests =
      [⟨ImgExpr.clip (ImgExpr.median (ImgExpr.filterBounds
          (ImgExpr.filterDate (ImgExpr.collection cfg.collectionId) sd ed)
          (regionOf (boundingBox deg lat lon (height : ℚ) res))))
          (regionOf (boundingBox deg lat lon (height : ℚ) res)),
        descriptionOf "gwl_fcs30" lat lon,
        regionOf (boundingBox deg lat lon (height : ℚ) res), crs, (height, width)⟩] := by
  unfold generateURLCore
  simp only [hbi]
  simp [attemptDownload_requests, TaskTrace.empty]

lemma core_landsat_sharpen (env : RemoteEnv) (lon lat : ℚ) (height width : Nat)
    (crs od sd ed band : String) (sh : Bool) (res : ℚ) (deg : ℚ → ℚ) :
    (generateURLCore env lon lat height width "landsat" crs od sd ed band sh landsatCfg
      res deg).2.sharpenAttempted = false := by
  unfold generateURLCore
  simp only [String.reduceEq, reduceIte]
  split
  · rfl
  · split
    · rfl
    · split
      · simp only [show landsatCfg.panchromatic = some (PyVal.pyList ["B8"]) from rfl]
        simp [pyIn_pyList, attemptDownload_sharpen, TaskTrace.empty]
      · rfl
    · rfl

/-! ### Claim theorems -/

/-- C5: for every lat, lon and all positive `sizePixels` and
`resolutionMetersPerPixel`, `boundingBox` returns `(xMin, xMax, yMin, yMax)`
with `xMin < xMax` and `yMin < yMax`, the box centered on `(lon, lat)` —
`(xMin+xMax)/2 = lon` and `(yMin+yMax)/2 = lat`, exactly over the reals —
and half-width equal to `degrees(0.5 * sizePixels * resolutionMetersPerPixel
/ 6371000)`. -/
theorem C5_boundingBox (lat lon size res : ℝ) (hs : 0 < size) (hr : 0 < res) :
    (boundingBox degreesR lat lon size res).1 < (boundingBox degreesR lat lon size res).2.1 ∧
    (boundingBox degreesR lat lon size res).2.2.1 <
      (boundingBox degreesR lat lon size res).2.2.2 ∧
    ((boundingBox degreesR lat lon size res).1 +
      (boundingBox degreesR lat lon size res).2.1) / 2 = lon ∧
    ((boundingBox degreesR lat lon size res).2.2.1 +
      (boundingBox degreesR lat lon size res).2.2.2) / 2 = lat ∧
    (boundingBox degreesR lat lon size res).2.1 - lon =
      degreesR (1 / 2 * (size * res) / 6371000) := by
  have hpi := Real.pi_pos
  have hd : 0 < degreesR (1 / 2 * (size * res / 6371000)) := by
    unfold degreesR
    positivity
  simp only [boundingBox]
  refine ⟨by linarith, by linarith, by ring, by ring, ?_⟩
  unfold degreesR
  ring

/-- Witness for C5 at `lat = 0`, `lon = 0`, `size = 512`, `res = 30`. -/
theorem C5_witness :
    (0 : ℝ) < 512 ∧ (0 : ℝ) < 30 ∧
    ((boundingBox degreesR 0 0 512 30).1 < (boundingBox degreesR 0 0 512 30).2.1 ∧
     (boundingBox degreesR 0 0 512 30).2.2.1 < (boundingBox degreesR 0 0 512 30).2.2.2 ∧
     ((boundingBox degreesR 0 0 512 30).1 + (boundingBox degreesR 0 0 512 30).2.1) / 2 =
       (0 : ℝ) ∧
     ((boundingBox degreesR 0 0 512 30).2.2.1 + (boundingBox degreesR 0 0 512 30).2.2.2) / 2 =
       (0 : ℝ) ∧
     (boundingBox degreesR 0 0 512 30).2.1 - 0 = degreesR (1 / 2 * (512 * 30) / 6371000)) :=
  ⟨by norm_num, by norm_num, C5_boundingBox 0 0 512 30 (by norm_num) (by norm_num)⟩

/-- C6: for dataset `sentinel` with a band group outside `{RGB, NIR, IR}`
(for example `SWIR1`) the effective resolution is 20 instead of the
catalog's default 10; for `sentinel` with a band group in that set it is the
default 10, and for every other dataset in the catalog it is that dataset's
configured default. -/
theorem C6_effective_resolution :
    (∀ band : String, band ∉ (["RGB", "NIR", "IR"] : List String) →
      effectiveResolution "sentinel" band = .ok 20) ∧
    (∀ band : String, band ∈ (["RGB", "NIR", "IR"] : List String) →
      effectiveResolution "sentinel" band = .ok 10) ∧
    sentinelCfg.resolution = 10 ∧
    (∀ dataset band : String, ∀ cfg : DatasetConfig, dataset ≠ "sentinel" →
      dico dataset = some cfg → effectiveResolution dataset band = .ok cfg.resolution) := by
  refine ⟨?_, ?_, rfl, ?_⟩
  · intro band hb
    unfold effectiveResolution
    rw [if_pos ⟨rfl, hb⟩]
  · intro band hb
    unfold effectiveResolution
    rw [if_neg (fun hc => hc.2 hb)]
    rfl
  · intro dataset band cfg hne hcfg
    unfold effectiveResolution
    rw [if_neg (fun hc => hne hc.1), hcfg]

/-- Witness for C6: `SWIR1` on sentinel resolves to 20, `RGB` on sentinel to
the default 10, and `RGB` on landsat to landsat's default 30. -/
theorem C6_witness :
    effectiveResolution "sentinel" "SWIR1" = .ok 20 ∧
    effectiveResolution "sentinel" "RGB" = .ok 10 ∧
    effectiveResolution "landsat" "RGB" = .ok 30 :=
  ⟨C6_effective_resolution.1 "SWIR1" (by decide),
   C6_effective_resolution.2.1 "RGB" (by decide),
   C6_effective_resolution.2.2.2 "landsat" "RGB" landsatCfg (by decide) rfl⟩

/-- C3 counterexample: the claim says a filename whose embedded lat/lon
matches no input coordinate "silently fails to deduplicate (the run
continues with the work list unchanged for it)".  In fact `data.remove`
raises `ValueError`, aborting the run: with the single existing file
`sentinel_image_35.5_-78.9.tif` and a work list containing only
`(-78.9, 35.50001)`, the resume filter raises instead of returning the
work list unchanged. -/
theorem C3_counterexample :
    resumeFilter ["sentinel_image_35.5_-78.9.tif"] [(mkRat (-789) 10, mkRat 3550001 100000)] =
      .error "ValueError" ∧
    resumeFilter ["sentinel_image_35.5_-78.9.tif"] [(mkRat (-789) 10, mkRat 3550001 100000)] ≠
      .ok [(mkRat (-789) 10, mkRat 3550001 100000)] := by decide

/-- C3 amended: the resume filter excludes exactly the coordinates whose
parsed values equal the lat/lon embedded in an existing filename — the file
`sentinel_image_35.5_-78.9.tif` removes `(-78.9, 35.5)` and leaves the
near-miss `(-78.9, 35.50001)` in the work list — but a filename whose
embedded lat/lon matches no input coordinate raises `ValueError` and aborts
the run (it does not silently continue): for any parsed file, if its
coordinate is in the work list the first occurrence is removed, and if it is
absent the filter fails with `ValueError`. -/
theorem C3_amended :
    resumeFilter ["sentinel_image_35.5_-78.9.tif"]
      [(mkRat (-789) 10, mkRat 355 10), (mkRat (-789) 10, mkRat 3550001 100000)] =
      .ok [(mkRat (-789) 10, mkRat 3550001 100000)] ∧
    (∀ (file : String) (lon lat : ℚ) (data : List (ℚ × ℚ)),
      parseFilename file = some (lon, lat) →
      ((lon, lat) ∈ data → resumeFilter [file] data = .ok (eraseFirst data (lon, lat))) ∧
      ((lon, lat) ∉ data → resumeFilter [file] data = .error "ValueError")) := by
  refine ⟨by decide, ?_⟩
  intro file lon lat data hp
  constructor
  · intro hmem
    simp [resumeFilter, hp, pyRemove_of_mem hmem]
  · intro hmem
    simp [resumeFilter, hp, pyRemove_of_not_mem hmem]

/-- Witness for C3 at the spec's own example file and a singleton work
list containing exactly the parsed coordinate. -/
theorem C3_witness :
    resumeFilter ["sentinel_image_35.5_-78.9.tif"] [(mkRat (-789) 10, mkRat 355 10)] =
      .ok (eraseFirst [(mkRat (-789) 10, mkRat 355 10)]
        (mkRat (-789) 10, mkRat 355 10)) :=
  (C3_amended.2 "sentinel_image_35.5_-78.9.tif" (mkRat (-789) 10) (mkRat 355 10)
    [(mkRat (-789) 10, mkRat 355 10)] (by decide)).1 (by decide)

lemma retried_of_ok (deg : ℚ → ℚ) (env : RemoteEnv) (coord : ℚ × ℚ)
    (height width : Nat) (dataset crs od sd ed band : String) (sh : Bool)
    (h : (generateURL deg env coord height width dataset crs od sd ed band sh).1 = .ok ()) :
    generateURLRetried deg (fun _ => env) coord height width dataset crs od sd ed band sh =
      ⟨.ok (), (generateURL deg env coord height width dataset crs od sd ed band sh).2,
       1, []⟩ := by
  unfold generateURLRetried retryStep
  have h0 : (baseStep (fun i => generateURL deg ((fun _ : Nat => env) i) coord height width
      dataset crs od sd ed band sh) 0).outcome = .ok () := h
  rw [retryAux_ok _ 2 10 2 0 (by norm_num)
        (by rw [retryAux_ok _ 2 10 2 0 (by norm_num) h0]; exact h0),
      retryAux_ok _ 2 10 2 0 (by norm_num) h0]
  simp [baseStep, h]

/-- C1 counterexample: the claim says a download failure is retried up to 10
times, so that a download failing on the first 9 attempts and succeeding on
the 10th yields a success with no task-level failure logged.  With an
environment sequence whose download step fails (HTTP 500) on the first
attempt and would succeed from the second attempt on, the retry-wrapped
`generateURL` executes its body exactly once, logs an exception, writes no
file, and returns success — the download step is never re-attempted. -/
theorem C1_counterexample :
    (generateURLRetried id (fun i => if i = 0 then envDlFail else envDlOk) (0, 0) 1 1
      "naip" "c" "o" "s" "e" "RGB" false).calls = 1 ∧
    (generateURLRetried id (fun i => if i = 0 then envDlFail else envDlOk) (0, 0) 1 1
      "naip" "c" "o" "s" "e" "RGB" false).trace.files = [] ∧
    (generateURLRetried id (fun i => if i = 0 then envDlFail else envDlOk) (0, 0) 1 1
      "naip" "c" "o" "s" "e" "RGB" false).trace.logs = [.errorLog "HTTPError 500"] ∧
    (generateURLRetried id (fun i => if i = 0 then envDlFail else envDlOk) (0, 0) 1 1
      "naip" "c" "o" "s" "e" "RGB" false).outcome = .ok () := by decide

/-- C1 amended: a failure of the download step (non-2xx HTTP status or
raised error) is caught inside `generateURL`'s own `try/except`, logged via
`logging.exception`, and NOT retried: the body completes normally with no
file written for that coordinate, and the retry wrappers see a success, so
the body runs exactly once.  The `@retry(tries=10, delay=2, backoff=2)`
policy applies only to exceptions that escape the body (such as the
band-names fetch), not to the download step. -/
theorem C1_amended (deg : ℚ → ℚ) (env : RemoteEnv) (coord : ℚ × ℚ)
    (height width : Nat) (dataset crs od sd ed band : String)
    (cfg : DatasetConfig) (pv : PyVal) (bands bl : List String) (url : String)
    (status : Nat) (body : String)
    (hcfg : dico dataset = some cfg)
    (hng : dataset ≠ "gwl_fcs30")
    (hbg : List.lookup band cfg.bandGroups = some (some bands))
    (hbi : env.bandsInfo = .ok bl)
    (hall : bands.all (fun b => bl.contains b) = true)
    (hpan : cfg.panchromatic = some pv)
    (hurl : env.getUrl (descriptionOf dataset coord.2 coord.1) = .ok url)
    (hget : env.httpGet url = .ok (status, body))
    (hst : status ≠ 200) :
    (generateURL deg env coord height width dataset crs od sd ed band false).1 = .ok () ∧
    (generateURL deg env coord height width dataset crs od sd ed band false).2.files = [] ∧
    (generateURL deg env coord height width dataset crs od sd ed band false).2.logs =
      [.errorLog ("HTTPError " ++ toString status)] ∧
    generateURLRetried deg (fun _ => env) coord height width dataset crs od sd ed band
      false =
      ⟨.ok (), (generateURL deg env coord height width dataset crs od sd ed band false).2,
       1, []⟩ := by
  have hcore := core_dl_fail env coord.1 coord.2 height width dataset crs od sd ed band cfg
    (if dataset = "sentinel" ∧ band ∉ (["RGB", "NIR", "IR"] : List String) then 20
     else cfg.resolution)
    deg bands bl pv url status body hng hbi
    (cfgEntry_of_lookup dataset cfg band bands hcfg hbg) hall hpan hurl hget hst
  have hgen := generateURL_eq_core deg env coord height width dataset crs od sd ed band
    false cfg hcfg
  have hout : (generateURL deg env coord height width dataset crs od sd ed band false).1 =
      .ok () := by rw [hgen, hcore]
  refine ⟨hout, ?_, ?_, retried_of_ok deg env coord height width dataset crs od sd ed band
    false hout⟩
  · rw [hgen, hcore]
  · rw [hgen, hcore]

/-- Witness for C1 amended: a concrete `naip` task whose download answers
HTTP 500. -/
theorem C1_witness :
    (generateURL id envDlFail (0, 0) 1 1 "naip" "c" "o" "s" "e" "RGB" false).1 = .ok () ∧
    (generateURL id envDlFail (0, 0) 1 1 "naip" "c" "o" "s" "e" "RGB" false).2.files = [] ∧
    (generateURL id envDlFail (0, 0) 1 1 "naip" "c" "o" "s" "e" "RGB" false).2.logs =
      [.errorLog ("HTTPError " ++ toString 500)] ∧
    generateURLRetried id (fun _ => envDlFail) (0, 0) 1 1 "naip" "c" "o" "s" "e" "RGB"
      false =
      ⟨.ok (), (generateURL id envDlFail (0, 0) 1 1 "naip" "c" "o" "s" "e" "RGB" false).2,
       1, []⟩ :=
  C1_amended id envDlFail (0, 0) 1 1 "naip" "c" "o" "s" "e" "RGB" naipCfg PyVal.pyNone
    ["R", "G", "B"] ["R", "G", "B", "N"] "http://u0" 500 "" rfl (by decide) (by decide)
    rfl (by decide) rfl rfl rfl (by decide)

lemma runSerial_first_error (rest : List (Except PyExn Unit × TaskTrace)) (e : PyExn)
    (tr : TaskTrace) :
    ∀ pre : List (Except PyExn Unit × TaskTrace), (∀ p ∈ pre, p.1 = Except.ok ()) →
    runSerial (pre ++ (Except.error e, tr) :: rest) =
      (.error e, pre.map (fun p => p.2) ++ [tr]) := by
  intro pre
  induction pre with
  | nil => intro _; rfl
  | cons p ps ih =>
    intro h
    obtain ⟨o, t⟩ := p
    have ho : o = .ok () := h (o, t) (List.mem_cons_self _ _)
    subst ho
    simp only [List.cons_append, runSerial, List.append_eq]
    rw [ih (fun q hq => h q (List.mem_cons_of_mem _ hq))]
    simp

lemma firstErr_first_error (rest : List (Except PyExn Unit × TaskTrace)) (e : PyExn)
    (tr : TaskTrace) :
    ∀ pre : List (Except PyExn Unit × TaskTrace), (∀ p ∈ pre, p.1 = Except.ok ()) →
    firstErr (pre ++ (Except.error e, tr) :: rest) = .error e := by
  intro pre
  induction pre with
  | nil => intro _; rfl
  | cons p ps ih =>
    intro h
    obtain ⟨o, t⟩ := p
    have ho : o = .ok () := h (o, t) (List.mem_cons_self _ _)
    subst ho
    simp only [List.cons_append, firstErr, List.append_eq]
    exact ih (fun q hq => h q (List.mem_cons_of_mem _ hq))

/-- C2 amended: an exception escaping a task is not isolated.  In serial
mode it aborts the run at the first failing task: the run result is that
error and the executed traces are exactly those of the tasks before it plus
the failing task — later siblings never execute.  In parallel mode every
submitted task does execute (all traces are present), but iterating
`future.result()` re-raises the first stored exception and the run aborts;
the escaping failure is re-raised, not logged. -/
theorem C2_amended :
    (∀ (pre rest : List (Except PyExn Unit × TaskTrace)) (e : PyExn) (tr : TaskTrace),
      (∀ p ∈ pre, p.1 = Except.ok ()) →
      runSerial (pre ++ (Except.error e, tr) :: rest) =
        (.error e, pre.map (fun p => p.2) ++ [tr])) ∧
    (∀ (pre rest : List (Except PyExn Unit × TaskTrace)) (e : PyExn) (tr : TaskTrace),
      (∀ p ∈ pre, p.1 = Except.ok ()) →
      (runParallel (pre ++ (Except.error e, tr) :: rest)).1 = .error e) ∧
    (∀ results : List (Except PyExn Unit × TaskTrace),
      (runParallel results).2 = results.map fun p => p.2) :=
  ⟨fun pre rest e tr h => runSerial_first_error rest e tr pre h,
   fun pre rest e tr h => firstErr_first_error rest e tr pre h,
   fun _ => rfl⟩

/-- Witness for C2 amended: one healthy task, then a failing task, then one
more healthy sibling. -/
theorem C2_witness :
    runSerial ([(Except.ok (), TaskTrace.empty)] ++
        (Except.error (.remote "x"), TaskTrace.empty) :: [(Except.ok (), TaskTrace.empty)]) =
      (.error (.remote "x"),
       ([(Except.ok (), TaskTrace.empty)] :
          List (Except PyExn Unit × TaskTrace)).map (fun p => p.2) ++ [TaskTrace.empty]) ∧
    (runParallel ([(Except.ok (), TaskTrace.empty)] ++
        (Except.error (.remote "x"), TaskTrace.empty) ::
          [(Except.ok (), TaskTrace.empty)])).1 = .error (.remote "x") :=
  ⟨C2_amended.1 [(Except.ok (), TaskTrace.empty)] [(Except.ok (), TaskTrace.empty)]
     (.remote "x") TaskTrace.empty (by simp),
   C2_amended.2.1 [(Except.ok (), TaskTrace.empty)] [(Except.ok (), TaskTrace.empty)]
     (.remote "x") TaskTrace.empty (by simp)⟩

set_option maxRecDepth 8000 in
set_option maxHeartbeats 1600000 in
/-- C2 counterexample: a task with an unknown band group (`BOGUS` on
`sentinel`) raises `KeyError` out of its body; dispatched serially before a
perfectly healthy `naip` task, the run aborts with that exception, the
healthy sibling is never executed (its trace is absent from the run
result), and in parallel mode the run outcome is the same re-raised
exception — contradicting the claim that one task's unrecoverable failure
is logged and does not abort the sibling tasks or the run. -/
theorem C2_counterexample :
    runSerial
      [((generateURLRetried id (fun _ => envDlOk) (0, 0) 1 1 "sentinel" "c" "o" "s" "e"
          "BOGUS" false).outcome,
        (generateURLRetried id (fun _ => envDlOk) (0, 0) 1 1 "sentinel" "c" "o" "s" "e"
          "BOGUS" false).trace),
       ((generateURLRetried id (fun _ => envDlOk) (0, 0) 1 1 "naip" "c" "o" "s" "e"
          "RGB" false).outcome,
        (generateURLRetried id (fun _ => envDlOk) (0, 0) 1 1 "naip" "c" "o" "s" "e"
          "RGB" false).trace)] =
      (.error (.unknownBandGroup "sentinel" "BOGUS"), [TaskTrace.empty]) ∧
    (runParallel
      [((generateURLRetried id (fun _ => envDlOk) (0, 0) 1 1 "sentinel" "c" "o" "s" "e"
          "BOGUS" false).outcome,
        (generateURLRetried id (fun _ => envDlOk) (0, 0) 1 1 "sentinel" "c" "o" "s" "e"
          "BOGUS" false).trace),
       ((generateURLRetried id (fun _ => envDlOk) (0, 0) 1 1 "naip" "c" "o" "s" "e"
          "RGB" false).outcome,
        (generateURLRetried id (fun _ => envDlOk) (0, 0) 1 1 "naip" "c" "o" "s" "e"
          "RGB" false).trace)]).1 = .error (.unknownBandGroup "sentinel" "BOGUS") ∧
    (generateURLRetried id (fun _ => envDlOk) (0, 0) 1 1 "naip" "c" "o" "s" "e" "RGB"
      false).outcome = .ok () := by decide

/-- C4 (code bug): pan-sharpening is never attempted.  The source reads
`panchromatic_band = dico[dataset]['panchromatic']`, which for `landsat` is
the *list* `['B8']`, and then tests `panchromatic_band in bands_list` — a
list is never equal to any of the string band names, so the test is always
False.  For every `landsat` task, whatever the inputs and remote bands, the
sharpening branch is not entered; in particular for the concrete failing
input (`landsat`, `RGB`, `sharpened = True`, remote bands including `B8`,
healthy download) only the primary file is written and no sharpened file is
produced, contradicting the claim and the CLI help text. -/
theorem C4_sharpening_dead :
    (∀ (deg : ℚ → ℚ) (env : RemoteEnv) (coord : ℚ × ℚ) (height width : Nat)
      (crs od sd ed band : String) (sh : Bool),
      (generateURL deg env coord height width "landsat" crs od sd ed band
        sh).2.sharpenAttempted = false) ∧
    (generateURL id envLandsat (0, 0) 1 1 "landsat" "c" "o" "s" "e" "RGB" true).1 =
      .ok () ∧
    (generateURL id envLandsat (0, 0) 1 1 "landsat" "c" "o" "s" "e" "RGB"
      true).2.sharpenAttempted = false ∧
    (generateURL id envLandsat (0, 0) 1 1 "landsat" "c" "o" "s" "e" "RGB"
      true).2.files.map (fun p => p.1) = ["o/landsat_image_0_0.tif"] := by
  refine ⟨?_, by decide, by decide, by decide⟩
  intro deg env coord height width crs od sd ed band sh
  rw [generateURL_eq_core deg env coord height width "landsat" crs od sd ed band sh
    landsatCfg rfl]
  exact core_landsat_sharpen env coord.1 coord.2 height width crs od sd ed band sh _ deg

/-- C7: a non-`gwl_fcs30` task whose filtered collection is missing one or
more of the requested band group's bands completes with the logged
"missing bands" info line as its only side effect: no exception, no
`getDownloadUrl` request, no HTTP GET, no file written; and because the
task returns normally, serial dispatch continues with the sibling tasks. -/
theorem C7_missing_bands (deg : ℚ → ℚ) (env : RemoteEnv) (coord : ℚ × ℚ)
    (height width : Nat) (dataset crs od sd ed band : String) (sh : Bool)
    (cfg : DatasetConfig) (bands bl : List String)
    (hcfg : dico dataset = some cfg)
    (hng : dataset ≠ "gwl_fcs30")
    (hbg : List.lookup band cfg.bandGroups = some (some bands))
    (hbi : env.bandsInfo = .ok bl)
    (hmiss : bands.all (fun b => bl.contains b) = false) :
    generateURL deg env coord height width dataset crs od sd ed band sh =
      (.ok (), ⟨[.info (missingBandsMsg coord.2 coord.1 bl)], [], [], [], false⟩) ∧
    (∀ rest : List (Except PyExn Unit × TaskTrace),
      runSerial (((generateURL deg env coord height width dataset crs od sd ed band sh).1,
          (generateURL deg env coord height width dataset crs od sd ed band sh).2) :: rest) =
        ((runSerial rest).1,
         (generateURL deg env coord height width dataset crs od sd ed band sh).2 ::
           (runSerial rest).2)) := by
  have hc := core_missing env coord.1 coord.2 height width dataset crs od sd ed band sh cfg
    (if dataset = "sentinel" ∧ band ∉ (["RGB", "NIR", "IR"] : List String) then 20
     else cfg.resolution)
    deg bands bl hng hbi (cfgEntry_of_lookup dataset cfg band bands hcfg hbg) hmiss
  have hgen := generateURL_eq_core deg env coord height width dataset crs od sd ed band sh
    cfg hcfg
  rw [hgen, hc]
  exact ⟨rfl, fun rest => rfl⟩

/-- Witness for C7: a `naip` RGB task whose remote bands are only `R, G`
(the `B` band is missing). -/
theorem C7_witness :
    generateURL id envMissing (0, 0) 1 1 "naip" "c" "o" "s" "e" "RGB" false =
      (.ok (), ⟨[.info (missingBandsMsg 0 0 ["R", "G"])], [], [], [], false⟩) ∧
    runSerial (((generateURL id envMissing (0, 0) 1 1 "naip" "c" "o" "s" "e" "RGB"
        false).1,
        (generateURL id envMissing (0, 0) 1 1 "naip" "c" "o" "s" "e" "RGB" false).2) ::
        [(Except.ok (), TaskTrace.empty)]) =
      ((runSerial [(Except.ok (), TaskTrace.empty)]).1,
       (generateURL id envMissing (0, 0) 1 1 "naip" "c" "o" "s" "e" "RGB" false).2 ::
         (runSerial [(Except.ok (), TaskTrace.empty)]).2) :=
  ⟨(C7_missing_bands id envMissing (0, 0) 1 1 "naip" "c" "o" "s" "e" "RGB" false naipCfg
      ["R", "G", "B"] ["R", "G"] rfl (by decide) (by decide) rfl (by decide)).1,
   (C7_missing_bands id envMissing (0, 0) 1 1 "naip" "c" "o" "s" "e" "RGB" false naipCfg
      ["R", "G", "B"] ["R", "G"] rfl (by decide) (by decide) rfl (by decide)).2
     [(Except.ok (), TaskTrace.empty)]⟩

/-- C8: for dataset `gwl_fcs30` the band-group logic is bypassed entirely —
the task result does not depend on the requested band-group name at all, and
no `UnknownBandGroup` failure can occur; the image requested for download is
the raw clipped median composite with no `visualize` min/max stretch node.
For every other catalog dataset, a band-group name absent from that
dataset's dict entry — `cfgEntry` models the whole entry, so names such as
`'min'` or `'panchromatic'` that the entry does hold are not KeyErrors —
fails with `UnknownBandGroup` (the `KeyError` of `dico[dataset][band]`). -/
theorem C8_gwl_bypass :
    (∀ (deg : ℚ → ℚ) (env : RemoteEnv) (coord : ℚ × ℚ) (height width : Nat)
      (crs od sd ed b1 b2 : String) (sh : Bool),
      generateURL deg env coord height width "gwl_fcs30" crs od sd ed b1 sh =
        generateURL deg env coord height width "gwl_fcs30" crs od sd ed b2 sh) ∧
    (∀ (deg : ℚ → ℚ) (env : RemoteEnv) (coord : ℚ × ℚ) (height width : Nat)
      (crs od sd ed band : String) (sh : Bool) (d g : String),
      (generateURL deg env coord height width "gwl_fcs30" crs od sd ed band sh).1 ≠
        .error (.unknownBandGroup d g)) ∧
    (∀ (deg : ℚ → ℚ) (env : RemoteEnv) (coord : ℚ × ℚ) (height width : Nat)
      (crs od sd ed band : String) (sh : Bool) (bl : List String),
      env.bandsInfo = .ok bl →
      (generateURL deg env coord height width "gwl_fcs30" crs od sd ed band
        sh).2.requests.map (fun q => q.image) =
        [ImgExpr.clip (ImgExpr.median (ImgExpr.filterBounds
           (ImgExpr.filterDate
             (ImgExpr.collection "projects/sat-io/open-datasets/GWL_FCS30") sd ed)
           (regionOf (boundingBox deg coord.2 coord.1 (height : ℚ) 30))))
           (regionOf (boundingBox deg coord.2 coord.1 (height : ℚ) 30))]) ∧
    (∀ (deg : ℚ → ℚ) (env : RemoteEnv) (coord : ℚ × ℚ) (height width : Nat)
      (dataset crs od sd ed band : String) (sh : Bool) (cfg : DatasetConfig)
      (bl : List String),
      dico dataset = some cfg → dataset ≠ "gwl_fcs30" → env.bandsInfo = .ok bl →
      cfgEntry cfg band = none →
      (generateURL deg env coord height width dataset crs od sd ed band sh).1 =
        .error (.unknownBandGroup dataset band)) := by
  refine ⟨?_, ?_, ?_, ?_⟩
  · intro deg env coord height width crs od sd ed b1 b2 sh
    rw [generateURL_eq_core deg env coord height width "gwl_fcs30" crs od sd ed b1 sh
          gwlCfg rfl,
        generateURL_eq_core deg env coord height width "gwl_fcs30" crs od sd ed b2 sh
          gwlCfg rfl,
        if_neg (fun hc => absurd hc.1 (by decide)),
        if_neg (fun hc => absurd hc.1 (by decide))]
    exact core_gwl_band env coord.1 coord.2 height width crs od sd ed b1 b2 sh gwlCfg
      gwlCfg.resolution deg
  · intro deg env coord height width crs od sd ed band sh d g
    rw [generateURL_eq_core deg env coord height width "gwl_fcs30" crs od sd ed band sh
          gwlCfg rfl,
        if_neg (fun hc => absurd hc.1 (by decide))]
    rcases core_gwl_outcome env coord.1 coord.2 height width crs od sd ed band sh gwlCfg
      gwlCfg.resolution deg with h | ⟨m, h⟩ <;> rw [h] <;> simp
  · intro deg env coord height width crs od sd ed band sh bl hbi
    rw [generateURL_eq_core deg env coord height width "gwl_fcs30" crs od sd ed band sh
          gwlCfg rfl,
        if_neg (fun hc => absurd hc.1 (by decide)),
        core_gwl_requests env coord.1 coord.2 height width crs od sd ed band sh gwlCfg
          gwlCfg.resolution deg bl hbi]
    simp [gwlCfg]
  · intro deg env coord height width dataset crs od sd ed band sh cfg bl hcfg hng hbi hbg
    rw [generateURL_eq_core deg env coord height width dataset crs od sd ed band sh
          cfg hcfg]
    exact core_unknown_bg env coord.1 coord.2 height width dataset crs od sd ed band sh
      cfg _ deg bl hng hbi hbg

/-- Witness for C8: the `gwl_fcs30` request image on a healthy environment,
and the `UnknownBandGroup` failure of band group `FOO` on `sentinel`. -/
theorem C8_witness :
    (generateURL id envDlOk (0, 0) 1 1 "gwl_fcs30" "c" "o" "s" "e" "ANY"
      false).2.requests.map (fun q => q.image) =
      [ImgExpr.clip (ImgExpr.median (ImgExpr.filterBounds
         (ImgExpr.filterDate
           (ImgExpr.collection "projects/sat-io/open-datasets/GWL_FCS30") "s" "e")
         (regionOf (boundingBox id 0 0 ((1 : Nat) : ℚ) 30))))
         (regionOf (boundingBox id 0 0 ((1 : Nat) : ℚ) 30))] ∧
    (generateURL id envDlOk (0, 0) 1 1 "sentinel" "c" "o" "s" "e" "FOO" false).1 =
      .error (.unknownBandGroup "sentinel" "FOO") :=
  ⟨C8_gwl_bypass.2.2.1 id envDlOk (0, 0) 1 1 "c" "o" "s" "e" "ANY" false
     ["R", "G", "B", "N"] rfl,
   C8_gwl_bypass.2.2.2 id envDlOk (0, 0) 1 1 "sentinel" "c" "o" "s" "e" "FOO" false
     sentinelCfg ["R", "G", "B", "N"] rfl (by decide) rfl (by decide)⟩

lemma retried_constFail (deg : ℚ → ℚ) (envSeq : Nat → RemoteEnv) (coord : ℚ × ℚ)
    (height width : Nat) (dataset crs od sd ed band : String) (sh : Bool) (e : PyExn)
    (h : ∀ i, generateURL deg (envSeq i) coord height width dataset crs od sd ed band sh =
      (.error e, TaskTrace.empty)) :
    generateURLRetried deg envSeq coord height width dataset crs od sd ed band sh =
      ⟨.error e, TaskTrace.empty, 100, sleepsFor (sleepsFor [] 2 2 9) 2 2 9⟩ := by
  have hbody : ∀ i, baseStep (fun i => generateURL deg (envSeq i) coord height width
      dataset crs od sd ed band sh) i = ⟨.error e, TaskTrace.empty, 1, []⟩ := by
    intro i
    simp [baseStep, h i]
  have hin : ∀ i, retryAux (baseStep (fun i => generateURL deg (envSeq i) coord height
      width dataset crs od sd ed band sh)) 2 10 2 i =
      ⟨.error e, TaskTrace.empty, 10, sleepsFor [] 2 2 9⟩ := by
    intro i
    have h9 := retryAux_constFail _ 2 e 1 [] hbody 9 2 i
    norm_num at h9
    exact h9
  have hout := retryAux_constFail _ 2 e 10 (sleepsFor [] 2 2 9) hin 9 2 0
  norm_num at hout
  unfold generateURLRetried retryStep
  exact hout

set_option maxRecDepth 8000 in
set_option maxHeartbeats 1600000 in
/-- C9 counterexample: the claim says an unknown dataset name is a setup
error surfaced before any per-coordinate task is dispatched.  In fact
nothing validates the dataset name before dispatch: with dataset `foo`, the
dispatched retry-wrapped task itself executes the `generateURL` body 100
times (the `KeyError` on `dico` triggers the full nested retry policy) and
only then propagates the failure. -/
theorem C9_counterexample :
    (generateURLRetried id (fun _ => envDlOk) (0, 0) 1 1 "foo" "c" "o" "s" "e" "RGB"
      false).outcome = .error (.unknownDataset "foo") ∧
    (generateURLRetried id (fun _ => envDlOk) (0, 0) 1 1 "foo" "c" "o" "s" "e" "RGB"
      false).calls = 100 := by decide

/-- C9 amended: a dataset name absent from the catalog is not detected
before dispatch; each dispatched task fails with the `UnknownDataset`
`KeyError` inside `generateURL` only after the two stacked retry policies
have executed the body 100 times with full exponential backoff, and the run
then aborts when that task's exception surfaces (in serial mode the sibling
tasks after it are not executed). -/
theorem C9_amended (deg : ℚ → ℚ) (envSeq : Nat → RemoteEnv) (coord : ℚ × ℚ)
    (height width : Nat) (dataset crs od sd ed band : String) (sh : Bool)
    (hd : dico dataset = none) :
    generateURLRetried deg envSeq coord height width dataset crs od sd ed band sh =
      ⟨.error (.unknownDataset dataset), TaskTrace.empty, 100,
       sleepsFor (sleepsFor [] 2 2 9) 2 2 9⟩ ∧
    runSerial [((Except.error (.unknownDataset dataset) : Except PyExn Unit),
                TaskTrace.empty), (Except.ok (), TaskTrace.empty)] =
      (.error (.unknownDataset dataset), [TaskTrace.empty]) := by
  refine ⟨?_, rfl⟩
  exact retried_constFail deg envSeq coord height width dataset crs od sd ed band sh
    (.unknownDataset dataset)
    (fun i => generateURL_unknown_dataset deg (envSeq i) coord height width dataset crs
      od sd ed band sh hd)

/-- Witness for C9 amended at the unknown dataset name `nope`. -/
theorem C9_witness :
    generateURLRetried id (fun _ => envDlOk) (0, 0) 1 1 "nope" "c" "o" "s" "e" "RGB"
      false =
      ⟨.error (.unknownDataset "nope"), TaskTrace.empty, 100,
       sleepsFor (sleepsFor [] 2 2 9) 2 2 9⟩ ∧
    runSerial [((Except.error (.unknownDataset "nope") : Except PyExn Unit),
                TaskTrace.empty), (Except.ok (), TaskTrace.empty)] =
      (.error (.unknownDataset "nope"), [TaskTrace.empty]) :=
  C9_amended id (fun _ => envDlOk) (0, 0) 1 1 "nope" "c" "o" "s" "e" "RGB" false
    (by decide)

/-- C10: the retry decorator is stacked twice on `generateURL`, so an
exception escaping the body (for example a failing band-names fetch) is
retried by the inner policy inside each attempt of the outer policy: the
body never executes more than 100 times, an always-failing body executes
exactly 100 times before the exception propagates, and each retry level
contributes its own exponential back-off sleeps 2, 4, ..., 512. -/
theorem C10_nested_retry :
    (∀ (deg : ℚ → ℚ) (envSeq : Nat → RemoteEnv) (coord : ℚ × ℚ) (height width : Nat)
      (dataset crs od sd ed band : String) (sh : Bool),
      (generateURLRetried deg envSeq coord height width dataset crs od sd ed band
        sh).calls ≤ 100) ∧
    generateURLRetried id (fun _ => envBandsFail) (0, 0) 1 1 "sentinel" "c" "o" "s" "e"
      "RGB" false =
      ⟨.error (.remote "boom"), TaskTrace.empty, 100,
       sleepsFor (sleepsFor [] 2 2 9) 2 2 9⟩ ∧
    sleepsFor [] 2 2 9 = [2, 4, 8, 16, 32, 64, 128, 256, 512] := by
  refine ⟨?_, ?_, by decide⟩
  · intro deg envSeq coord height width dataset crs od sd ed band sh
    unfold generateURLRetried retryStep
    have h1 : ∀ i, ((baseStep (fun i => generateURL deg (envSeq i) coord height width
        dataset crs od sd ed band sh)) i).calls ≤ 1 := fun i => le_refl 1
    have h3 : ∀ i, ((retryAux (baseStep (fun i => generateURL deg (envSeq i) coord
        height width dataset crs od sd ed band sh)) 2 10 2) i).calls ≤ 10 := by
      intro i
      simpa using retryAux_calls_le _ 2 1 h1 10 2 i
    simpa using retryAux_calls_le _ 2 10 h3 10 2 0
  · exact retried_constFail id (fun _ => envBandsFail) (0, 0) 1 1 "sentinel" "c" "o" "s"
      "e" "RGB" false (.remote "boom") (fun i => rfl)
